import Mathlib

/-!
Shallow embedding of the carrier-pigeon collection-persistence core
(`carrier-pigeon-app/src/state.rs`, `main.rs`, `model.rs`,
`ui/logging.rs`, and the `OrderedEnum` derive of
`carrier-pigeon-macros/src/lib.rs`).

Rust `HashMap`s are modelled as association lists with last-write-wins
insertion (`AList.insert`); iteration order of a Rust `HashMap` is
unspecified, and no theorem below depends on the particular order the
list model fixes.  Raw byte blobs (`Box<[u8]>`) holding JSON are
modelled by the inductive `Bytes`, whose constructors stand for the
distinct families of JSON texts the program produces or consumes; the
decode functions mirror what `serde_json::from_slice` accepts at each
call site (see the comments on `Bytes`).
-/

namespace CarrierPigeon

/-- HTTP method enum from `model.rs`. -/
inductive Method where
  | get
  | post
deriving DecidableEq, Repr

/-- Protocol enum from `model.rs`. -/
inductive Protocol where
  | http
  | tcp
  | rpc
  | grpc
deriving DecidableEq, Repr

/-- A single header name/value pair (`model.rs::Header`). -/
structure Header where
  name : String
  value : String
deriving DecidableEq, Repr

/-- `model.rs::Request`: a single HTTP request definition. -/
structure Request where
  name : String
  protocol : Option Protocol
  url : String
  method : Method
  headers : List Header
  body : Option String
  path_params : Option (List (String × String))
  query_params : Option (List (String × String))
deriving DecidableEq, Repr

/-- `state.rs::EnvironmentValue`: tagged union `{Secret(s)} | {Value(s)}`. -/
inductive EnvironmentValue where
  | secret (s : String)
  | value (s : String)
deriving DecidableEq, Repr

/-- `state.rs::EnvironmentValues = HashMap<String, EnvironmentValue>`,
modelled as an association list. -/
abbrev EnvironmentValues := List (String × EnvironmentValue)

/-- `state.rs::Environment`: a named bag of values. -/
structure Environment where
  name : String
  values : EnvironmentValues
deriving DecidableEq, Repr

/-- `state.rs::Secret`: currently a unit-like tag. -/
inductive Secret where
  | rawValue
deriving DecidableEq, Repr

/-- `state.rs::GlobalState`: process-wide secrets store. -/
structure GlobalState where
  secrets : List (String × Secret)
deriving DecidableEq, Repr

/-- Raw JSON byte blobs (`Box<[u8]>`).  Each constructor denotes the
JSON text `serde_json` produces for the given value:
* `reqJson r` — the encoding of a full `Request` struct;
* `envJson e` — the encoding of a full `Environment` struct, i.e. an
  object with fields `"name"` (a JSON string) and `"values"`;
* `valsJson v` — the encoding of a bare `EnvironmentValues` map, whose
  values are externally tagged objects `{"Secret":s}`/`{"Value":s}`;
* `secretsJson s` — the encoding of a `HashMap<Box<str>, Secret>`;
* `corrupt n` — an arbitrary blob that is not valid JSON for any of the
  types above.
The constructors denote pairwise distinct families of texts: a full
`Environment` object carries a `"name"` field holding a JSON *string*,
so it is never a well-formed `EnvironmentValues` map (whose values must
be tagged objects), never a `Request` (missing `"url"`/`"method"`), and
never a secrets map (whose values are the string `"RawValue"`); the
analogous field-shape mismatches separate the remaining constructors. -/
inductive Bytes where
  | reqJson (r : Request)
  | envJson (e : Environment)
  | valsJson (v : EnvironmentValues)
  | secretsJson (s : List (String × Secret))
  | corrupt (n : Nat)
deriving DecidableEq, Repr

/-- `serde_json::from_slice::<Request>`: succeeds exactly on the JSON
encoding of a `Request`. -/
def decodeRequest : Bytes → Option Request
  | .reqJson r => some r
  | _ => none

/-- `serde_json::from_slice::<EnvironmentValues>`: succeeds exactly on
the JSON encoding of a bare values map.  In particular it *fails* on
`envJson e` (the encoding of a whole `Environment`), because the
`"name"` field's string value is not a tagged `EnvironmentValue`. -/
def decodeEnvValues : Bytes → Option EnvironmentValues
  | .valsJson v => some v
  | _ => none

/-- `serde_json::from_slice::<HashMap<Box<str>, Secret>>`. -/
def decodeSecrets : Bytes → Option (List (String × Secret))
  | .secretsJson s => some s
  | _ => none

namespace AList

/-- `HashMap::insert` on the association-list model: replace the value
at an existing key, otherwise append the new binding. -/
def insert {τ : Type} (m : List (String × τ)) (k : String) (v : τ) :
    List (String × τ) :=
  if m.any (fun e => e.1 = k) then
    m.map (fun e => if e.1 = k then (k, v) else e)
  else
    m ++ [(k, v)]

end AList

/-- `state.rs::SerializedCollection`: the intermediate wire form, two
name-keyed maps of JSON byte blobs. -/
structure SerializedCollection where
  requests : List (String × Bytes)
  environments : List (String × Bytes)
deriving DecidableEq, Repr

/-- `state.rs::Collection`. -/
structure Collection where
  requests : List Request
  environments : List Environment
  save_location : Option (List String)
deriving DecidableEq, Repr

/-- `Collection::serialize` (state.rs:132-161): fold every request into
a map keyed by `request.name` holding its JSON encoding, and every
environment into a map keyed by `environment.name` holding the JSON
encoding of the *whole* `Environment` struct (`serde_json::to_vec(env)`
serializes the `name` field together with `values`).  JSON encoding of
these types never fails, so the `if let Ok` guards always take the
`Ok` branch in the model. -/
def Collection.serialize (c : Collection) : SerializedCollection :=
  { requests :=
      c.requests.foldl (fun reqs req => AList.insert reqs req.name (.reqJson req)) []
    environments :=
      c.environments.foldl (fun envs env => AList.insert envs env.name (.envJson env)) [] }

/-- `Collection::deserialize` (state.rs:163-202): decode each requests
entry as a `Request`, silently dropping failures; decode each
environments entry as a bare `EnvironmentValues` map and wrap it with
`name = key`, silently dropping failures; store `save_location`. -/
def Collection.deserialize (save_location : List String)
    (ser_coll : SerializedCollection) : Collection :=
  { requests := ser_coll.requests.filterMap (fun e => decodeRequest e.2)
    environments := ser_coll.environments.filterMap (fun e =>
      (decodeEnvValues e.2).map (fun values => { name := e.1, values := values }))
    save_location := some save_location }

/-- `state.rs::RequestTab`, an `OrderedEnum` with variants in source
order `Body, Headers, PathParams, QueryParams`. -/
inductive RequestTab where
  | body
  | headers
  | pathParams
  | queryParams
deriving DecidableEq, Repr

namespace RequestTab

/-- `impl From<RequestTab> for usize` generated by the `OrderedEnum`
derive: each variant maps to its declaration index. -/
def toUsize : RequestTab → Nat
  | .body => 0
  | .headers => 1
  | .pathParams => 2
  | .queryParams => 3

/-- `impl From<usize> for RequestTab` generated by the `OrderedEnum`
derive: index in range maps to the variant at that index, every
out-of-range index maps to the last variant. -/
def ofUsize : Nat → RequestTab
  | 0 => .body
  | 1 => .headers
  | 2 => .pathParams
  | 3 => .queryParams
  | _ => .queryParams

/-- `RequestTab::prev_tab` (state.rs:45-52): clamp at index 0,
otherwise convert `index - 1` back to a variant. -/
def prev_tab (t : RequestTab) : RequestTab :=
  let idx := t.toUsize
  if idx = 0 then ofUsize idx else ofUsize (idx - 1)

/-- `RequestTab::next_tab` (state.rs:54-56): always request
`index + 1`; the conversion saturates at the last variant. -/
def next_tab (t : RequestTab) : RequestTab :=
  ofUsize (t.toUsize + 1)

end RequestTab

/-- `ui/logging.rs::RecordBuff`: a 256-slot circular buffer of optional
log lines with a wrapping `u8` cursor `latest_idx`.  Lines are kept
abstract in `α` (the Rust `Line<'a>`); `log_lines` is a list of length
256 indexed by `latest_idx`-style cursors, and the `u8` wrapping add is
`(· + 1) % 256`.  `get_unchecked (i as usize)` with `i : u8` is always
in bounds of the 256-slot array, so it is modelled by total lookup
(`getD _ none`). -/
structure RecordBuff (α : Type) where
  log_lines : List (Option α)
  latest_idx : Nat
deriving DecidableEq, Repr

namespace RecordBuff

/-- The buffer `UILogger::new` starts from: all 256 slots empty,
`latest_idx = 255`. -/
def empty (α : Type) : RecordBuff α :=
  { log_lines := List.replicate 256 none, latest_idx := 255 }

/-- Slot lookup, `self.log_lines.get_unchecked(i)`. -/
def get (b : RecordBuff α) (i : Nat) : Option α :=
  b.log_lines.getD i none

/-- The writer path of `UILogger::log` (logging.rs:113-118): compute
`idx = latest_idx.wrapping_add(1)`, store the line there, and advance
`latest_idx` to it. -/
def log (b : RecordBuff α) (line : α) : RecordBuff α :=
  let idx := (b.latest_idx + 1) % 256
  { log_lines := b.log_lines.set idx (some line), latest_idx := idx }

/-- The reader walk of `RecordBuff::display_logs` (logging.rs:30-38):
while the current slot is non-empty, push its line, stop after pushing
the slot at `latest_idx`, otherwise advance the wrapping cursor.  The
Rust loop performs at most 256 pushes before `cur` revisits
`latest_idx`, so the fuel 257 used by `display_logs` below makes the
model exact, never truncating. -/
def displayLoop (b : RecordBuff α) : Nat → Nat → List α
  | 0, _ => []
  | fuel + 1, cur =>
    match b.get cur with
    | none => []
    | some line =>
      if cur = b.latest_idx then [line]
      else line :: displayLoop b fuel ((cur + 1) % 256)

/-- `RecordBuff::display_logs` (logging.rs:16-40): start the walk at
`latest_idx + 1` (wrapping) if that slot is non-empty, else at 0. -/
def display_logs (b : RecordBuff α) : List α :=
  let start := (b.latest_idx + 1) % 256
  let cur := if (b.get start).isSome then start else 0
  displayLoop b 257 cur

end RecordBuff

/-- `model.rs::RequestBuilder<N, M, U>`: the typestate request builder.
`N`, `M`, `U` are the presence-flag types for name, method and url. -/
structure RequestBuilder (N M U : Type) where
  name : N
  method : M
  url : U
  protocol : Option Protocol
  headers : Option (List Header)
  body : Option String
  path_params : Option (List (String × String))
  query_params : Option (List (String × String))
deriving Repr

/-- `RequestBuilder::header` (model.rs:163-180): when `headers` is
`Some(v)`, push the new header onto `v`; when it is `None`, the bound
`headers` local becomes `vec![]` — the supplied header is dropped —
and the result's field is `Some` of that vector either way. -/
def RequestBuilder.header {N M U : Type} (b : RequestBuilder N M U)
    (h : Header) : RequestBuilder N M U :=
  let headers :=
    match b.headers with
    | some hs => hs ++ [h]
    | none => []
  { b with headers := some headers }

/-- Filesystem paths, as lists of components. -/
abbrev Path := List String

/-- `Path::join` with a single component. -/
def Path.join (p : Path) (s : String) : Path := p ++ [s]

/-- The filesystem model: the set of existing directories and a map
from file paths to contents.  `home` is the result of
`env_home_dir()`.  In this model directory creation and file writes
always succeed; the claims under verification only exercise error
paths that the source produces itself (missing directories/files,
decode failures), not I/O faults. -/
structure FS where
  home : Option Path
  dirs : List Path
  files : List (Path × Bytes)
deriving DecidableEq, Repr

namespace FS

/-- `Path::is_dir` against the model. -/
def isDir (fs : FS) (p : Path) : Bool := fs.dirs.contains p

/-- `Path::exists`: a directory or a file. -/
def pathExists (fs : FS) (p : Path) : Bool :=
  fs.dirs.contains p || fs.files.any (fun e => e.1 = p)

/-- `fs::read`: look the file up. -/
def readFile (fs : FS) (p : Path) : Option Bytes :=
  (fs.files.find? (fun e => e.1 = p)).map (·.2)

/-- `fs::write`: replace or append the binding for `p`. -/
def writeFile (fs : FS) (p : Path) (b : Bytes) : FS :=
  { fs with files :=
      if fs.files.any (fun e => e.1 = p) then
        fs.files.map (fun e => if e.1 = p then (p, b) else e)
      else
        fs.files ++ [(p, b)] }

/-- `fs::create_dir_all` / `fs::create_dir`: record the directory.
(Ancestor directories are irrelevant to every property proved below,
so only `p` itself is recorded.) -/
def createDir (fs : FS) (p : Path) : FS :=
  { fs with dirs := if fs.dirs.contains p then fs.dirs else fs.dirs ++ [p] }

/-- `fs::read_dir` followed by `fs::read` of each entry
(main.rs:177-188): when `p` is a directory, the list of
`(file_name, contents)` of the files directly under it; otherwise
`none` (the `Err` branch). -/
def readDir (fs : FS) (p : Path) : Option (List (String × Bytes)) :=
  if fs.dirs.contains p then
    some (fs.files.filterMap (fun e =>
      if e.1.length = p.length + 1 ∧ e.1.take p.length = p then
        (e.1.getLast?).map (fun n => (n, e.2))
      else none))
  else none

end FS

/-- `state.rs::Mode`. -/
inductive Mode where
  | normal
  | insert
deriving DecidableEq, Repr

/-- `state.rs::Pane`. -/
inductive Pane where
  | select
  | request
  | response
  | url
deriving DecidableEq, Repr

/-- The key-event codes `update` distinguishes (`crossterm KeyCode`). -/
inductive KeyCode where
  | esc
  | char (c : Char)
  | f (n : Nat)
  | other
deriving DecidableEq, Repr

/-- `crossterm KeyEventKind`. -/
inductive KeyEventKind where
  | press
  | release
deriving DecidableEq, Repr

/-- A raw terminal key event: the kind and code that
`handle_normal_key`/`handle_insert_key` inspect. -/
structure KeyEvent where
  kind : KeyEventKind
  code : KeyCode
deriving DecidableEq, Repr

/-- `main.rs::Message`. -/
inductive Message where
  | crash (reason : String)
  | loadCollection (path : Path)
  | input (c : Char)
  | modeRequest (m : Mode)
  | newCollection
  | quit
  | rawKeyEvent (e : KeyEvent)
  | requestPane (p : Pane)
  | saveCollection
  | saveGlobal
  | selectDown
  | selectLeft
  | selectRight
  | selectUp
  | start
  | toggleDebug
deriving DecidableEq, Repr

/-- The `App` aggregate, holding the fields the `update` loop in
`main.rs` reads and writes (`mode`, `collection`, `running`,
`work_dir`, `global`, `show_debug`, `active_pane`, `req_tab`,
`req_list_state`) together with `input_buf` from the `state.rs::App`
declaration.  `req_list_state` is the ratatui `ListState` selection
cursor. -/
structure App where
  mode : Mode
  collection : Option Collection
  running : Bool
  work_dir : Path
  global : GlobalState
  input_buf : String
  show_debug : Bool
  active_pane : Pane
  req_tab : RequestTab
  req_list_state : Option Nat
deriving DecidableEq, Repr

/-- The outcome of one `update` call: the `&mut App` and filesystem
after the call, and its `Result<Option<Message>>` value.  Modelling the
mutable state separately from the `Except` result keeps the state that
a `bail!` leaves behind observable, exactly as in Rust. -/
structure Out where
  app : App
  fs : FS
  res : Except String (Option Message)
deriving Repr

/-- `<home>/.local/share/.carrier-pigeon`, the global state directory
of `load_global_state`/`save_global_state`. -/
def globalDir (home : Path) : Path := home.join ".local/share/.carrier-pigeon"

/-- `load_global_state` (main.rs:102-121): fail when the home directory
is unavailable; when the global directory exists, read and decode the
`secrets` file (a missing file or a decode failure is an error); when
it does not exist, create it and return an empty secrets mapping. -/
def load_global_state (fs : FS) : FS × Except String GlobalState :=
  match fs.home with
  | none => (fs, .error "Failed to open Home directory")
  | some home =>
    let app_dir := globalDir home
    if fs.isDir app_dir then
      match fs.readFile (app_dir.join "secrets") with
      | some bytes =>
        match decodeSecrets bytes with
        | some secrets => (fs, .ok { secrets := secrets })
        | none => (fs, .error "serde_json deserialization error")
      | none => (fs, .error "Failed to load secrets file")
    else
      (fs.createDir app_dir, .ok { secrets := [] })

/-- `save_global_state` (main.rs:123-133): fail when the home directory
is unavailable; write the JSON-encoded secrets mapping only when the
global directory exists; succeed (doing nothing) when it does not. -/
def save_global_state (fs : FS) (state : GlobalState) :
    FS × Except String Unit :=
  match fs.home with
  | none => (fs, .error "Failed to open home directory")
  | some home =>
    let app_dir := globalDir home
    if fs.isDir app_dir then
      (fs.writeFile (app_dir.join "secrets") (.secretsJson state.secrets), .ok ())
    else
      (fs, .ok ())

/-- The path `"./request.json"` that the `NewCollection` branch reads
the example request from. -/
def requestJsonPath : Path := ["request.json"]

/-- The `Message::NewCollection` branch (main.rs:226-243): read and
decode `./request.json` (propagating failure via `?`), push the
decoded request and the fixed `TestEnvironment` onto a default
collection, install it, and chain `SaveCollection`. -/
def newCollectionStep (app : App) (fs : FS) : Out :=
  match fs.readFile requestJsonPath with
  | none => { app := app, fs := fs, res := .error "File path: ./request.json" }
  | some bytes =>
    match decodeRequest bytes with
    | none => { app := app, fs := fs, res := .error "serde_json deserialization error" }
    | some request =>
      let coll : Collection :=
        { requests := [request]
          environments :=
            [{ name := "TestEnvironment"
               values := [("TestValue", .value "Some value")] }]
          save_location := none }
      { app := { app with collection := some coll }, fs := fs
        res := .ok (some .saveCollection) }

/-- Build the `HashMap<Box<str>, Box<[u8]>>` from a directory listing
by repeated insertion, as the `fold`s in the `LoadCollection` branch
do. -/
def foldEntries (entries : List (String × Bytes)) : List (String × Bytes) :=
  entries.foldl (fun m e => AList.insert m e.1 e.2) []

/-- The `Message::LoadCollection` branch (main.rs:172-220): read the
`requests` and `environments` subdirectories (a directory-level
failure is a `bail!`), feed the two file maps to
`Collection::deserialize`, install the collection and reset the list
selection to the first entry. -/
def loadCollectionStep (app : App) (fs : FS) (path : Path) : Out :=
  match fs.readDir (Path.join path "requests") with
  | none =>
    { app := app, fs := fs
      res := .error "Failed to load requests from collection directory" }
  | some reqFiles =>
    match fs.readDir (Path.join path "environments") with
    | none =>
      { app := app, fs := fs
        res := .error "Failed to load environments from collection directory" }
    | some envFiles =>
      let coll := Collection.deserialize path
        { requests := foldEntries reqFiles, environments := foldEntries envFiles }
      { app := { app with collection := some coll, req_list_state := some 0 }
        fs := fs, res := .ok none }

/-- The `Message::SaveCollection` branch (main.rs:255-299): `bail!`
when no collection is loaded; otherwise serialize it, pick
`save_location` or `work_dir`, create the missing directories, and
write every request file then every environment file (individual write
failures are discarded in the source; writes always succeed in the
model). -/
def saveCollectionStep (app : App) (fs : FS) : Out :=
  match app.collection with
  | none =>
    { app := app, fs := fs
      res := .error "Attempted to serialize a none collection" }
  | some coll =>
    let ser_collection := coll.serialize
    let path := coll.save_location.getD app.work_dir
    let fs := if fs.pathExists path then fs else fs.createDir path
    let req_dir := Path.join path "requests"
    let fs := if fs.pathExists req_dir then fs else fs.createDir req_dir
    let fs := ser_collection.requests.foldl
      (fun f e => f.writeFile (req_dir.join e.1) e.2) fs
    let env_dir := Path.join path "environments"
    let fs := if fs.pathExists env_dir then fs else fs.createDir env_dir
    let fs := ser_collection.environments.foldl
      (fun f e => f.writeFile (env_dir.join e.1) e.2) fs
    { app := app, fs := fs, res := .ok none }

/-- The `Message::SaveGlobal` branch (main.rs:300-304). -/
def saveGlobalStep (app : App) (fs : FS) : Out :=
  match save_global_state fs app.global with
  | (fs, .ok _) => { app := app, fs := fs, res := .ok none }
  | (fs, .error e) => { app := app, fs := fs, res := .error e }

/-- ratatui `ListState::select_next`. -/
def selectNext (s : Option Nat) : Option Nat :=
  match s with
  | none => some 0
  | some i => some (i + 1)

/-- ratatui `ListState::select_previous`. -/
def selectPrevious (s : Option Nat) : Option Nat :=
  match s with
  | none => some 0
  | some i => some (i - 1)

/-- `load_application` (main.rs:402-409): resolve `Start` to
`LoadCollection(work_dir)` when the work directory exists, otherwise to
`NewCollection`. -/
def load_application (app : App) (fs : FS) : Except String (Option Message) :=
  if fs.pathExists app.work_dir then
    .ok (some (.loadCollection app.work_dir))
  else
    .ok (some .newCollection)

/-- The message dispatch `match` of `update` (main.rs:164-362) for
already-translated messages.  The source's `Quit` branch calls `update`
recursively on `SaveCollection` and `SaveGlobal`; those recursive calls
are the respective branch bodies, so the model invokes the shared step
functions directly (the recursion is unfolded once, which is exact
because neither nested message recurses further). -/
def dispatchMsg (app : App) (fs : FS) : Message → Out
  | .crash reason => { app := app, fs := fs, res := .error reason }
  | .input _ =>
    -- the branch only emits a trace log line; no field is touched
    { app := app, fs := fs, res := .ok none }
  | .loadCollection path => loadCollectionStep app fs path
  | .modeRequest m => { app := { app with mode := m }, fs := fs, res := .ok none }
  | .newCollection => newCollectionStep app fs
  | .quit =>
    let app := { app with running := false }
    let o1 := saveCollectionStep app fs
    match o1.res with
    | .error e => { app := o1.app, fs := o1.fs, res := .error e }
    | .ok _ =>
      let o2 := saveGlobalStep o1.app o1.fs
      match o2.res with
      | .error e => { app := o2.app, fs := o2.fs, res := .error e }
      | .ok _ => { app := o2.app, fs := o2.fs, res := .ok none }
  | .requestPane p =>
    { app := { app with active_pane := p }, fs := fs, res := .ok none }
  | .saveCollection => saveCollectionStep app fs
  | .saveGlobal => saveGlobalStep app fs
  | .selectDown =>
    match app.active_pane with
    | .select =>
      { app := { app with req_list_state := selectNext app.req_list_state }
        fs := fs, res := .ok none }
    | _ => { app := app, fs := fs, res := .ok none }
  | .selectLeft =>
    match app.active_pane with
    | .request =>
      let cur_tab_idx := app.req_tab.toUsize
      { app := { app with req_tab :=
          RequestTab.ofUsize (if cur_tab_idx = 0 then cur_tab_idx else cur_tab_idx - 1) }
        fs := fs, res := .ok none }
    | _ => { app := app, fs := fs, res := .ok none }
  | .selectRight =>
    match app.active_pane with
    | .request =>
      { app := { app with req_tab := RequestTab.ofUsize (app.req_tab.toUsize + 1) }
        fs := fs, res := .ok none }
    | _ => { app := app, fs := fs, res := .ok none }
  | .selectUp =>
    match app.active_pane with
    | .select =>
      { app := { app with req_list_state := selectPrevious app.req_list_state }
        fs := fs, res := .ok none }
    | _ => { app := app, fs := fs, res := .ok none }
  | .start => { app := app, fs := fs, res := load_application app fs }
  | .toggleDebug =>
    { app := { app with show_debug := !app.show_debug }, fs := fs, res := .ok none }
  | .rawKeyEvent _ =>
    -- falls into the `_ => None` arm (raw events are translated before
    -- this match is reached)
    { app := app, fs := fs, res := .ok none }

/-- `handle_normal_key` (main.rs:367-387). -/
def handle_normal_key (key_event : KeyEvent) : Option Message :=
  if key_event.kind = .press then
    match key_event.code with
    | .char '1' => some (.requestPane .select)
    | .char '2' => some (.requestPane .url)
    | .char '3' => some (.requestPane .request)
    | .char '4' => some (.requestPane .response)
    | .char 'i' => some (.modeRequest .insert)
    | .char 'h' => some .selectLeft
    | .char 'j' => some .selectDown
    | .char 'k' => some .selectUp
    | .char 'l' => some .selectRight
    | .char 'q' => some .quit
    | .char 'Q' => some .quit
    | .f 12 => some .toggleDebug
    | _ => none
  else none

/-- `handle_insert_key` (main.rs:389-400). -/
def handle_insert_key (key_event : KeyEvent) : Option Message :=
  if key_event.kind = .press then
    match key_event.code with
    | .esc => some (.modeRequest .normal)
    | .char c => some (.input c)
    | .f 12 => some .toggleDebug
    | _ => none
  else none

/-- `update` (main.rs:149-365): translate a `RawKeyEvent` through the
mode-dependent key handler (returning `Ok(None)` untouched when the
handler yields nothing), then dispatch. -/
def update (app : App) (fs : FS) (msg : Message) : Out :=
  match msg with
  | .rawKeyEvent event =>
    let m :=
      match app.mode with
      | .insert => handle_insert_key event
      | .normal => handle_normal_key event
    match m with
    | none => { app := app, fs := fs, res := .ok none }
    | some m => dispatchMsg app fs m
  | m => dispatchMsg app fs m

/-- The drain-and-chase inner loop of `main` (main.rs:86-94): apply
`update`, and while it returns `Ok(Some(msg))`, feed the follow-up
message back in.  `fuel` bounds the chase; every scenario proved below
terminates well within it. -/
def runChain : Nat → App → FS → Message → Out
  | 0, app, fs, msg => update app fs msg
  | fuel + 1, app, fs, msg =>
    let o := update app fs msg
    match o.res with
    | .ok (some m) => runChain fuel o.app o.fs m
    | _ => o

/-! Concrete inputs used by the counterexamples and witnesses. -/

/-- A sample request, standing in for the contents of
`./request.json`. -/
def sampleRequest : Request :=
  { name := "ExampleRequest"
    protocol := some .http
    url := "http://localhost:8080"
    method := .get
    headers := [{ name := "Content-Type", value := "application/json" }]
    body := some "{}"
    path_params := none
    query_params := none }

/-- The environment the `NewCollection` branch synthesizes. -/
def sampleEnvironment : Environment :=
  { name := "TestEnvironment", values := [("TestValue", .value "Some value")] }

/-- A collection with one request and one environment. -/
def sampleCollection : Collection :=
  { requests := [sampleRequest]
    environments := [sampleEnvironment]
    save_location := none }

/-- A first-run filesystem: home directory known, no `.pigeon` work
directory, and a valid `./request.json`. -/
def bootFS : FS :=
  { home := some ["home"]
    dirs := []
    files := [(requestJsonPath, .reqJson sampleRequest)] }

/-- A freshly built `App` (the state `AppBuilder::build` produces, with
`work_dir = ./.pigeon`). -/
def freshApp : App :=
  { mode := .normal
    collection := none
    running := true
    work_dir := [".pigeon"]
    global := { secrets := [] }
    input_buf := ""
    show_debug := false
    active_pane := .select
    req_tab := .body
    req_list_state := none }

/-- A fresh app switched into Insert mode. -/
def insertModeApp : App := { freshApp with mode := .insert }

/-- A fresh app with `sampleCollection` loaded. -/
def loadedApp : App := { freshApp with collection := some sampleCollection }

/-- Filesystem where the global state directory is absent. -/
def fsNoGlobalDir : FS := { home := some ["home"], dirs := [], files := [] }

/-- Filesystem where the global state directory exists but the
`secrets` file is missing. -/
def fsGlobalDirNoFile : FS :=
  { home := some ["home"], dirs := [globalDir ["home"]], files := [] }

/-- Filesystem where the global state directory and a decodable
`secrets` file both exist. -/
def fsGlobalDirWithFile : FS :=
  { home := some ["home"]
    dirs := [globalDir ["home"]]
    files := [(Path.join (globalDir ["home"]) "secrets",
               .secretsJson [("api-key", .rawValue)])] }

/-- A serialized collection in which exactly one of the two request
blobs and exactly one of the two environment blobs are not valid
JSON. -/
def corruptSerialized : SerializedCollection :=
  { requests := [("good", .reqJson sampleRequest), ("bad", .corrupt 0)]
    environments := [("goodEnv", .valsJson [("k", .value "v")]), ("badEnv", .corrupt 1)] }

/-- A request builder (all three typestate slots filled with `Unit`)
whose `headers` field is `None`. -/
def builderNoHeaders : RequestBuilder Unit Unit Unit :=
  { name := (), method := (), url := ()
    protocol := none, headers := none, body := none
    path_params := none, query_params := none }

/-- The same builder with one header already present. -/
def builderWithHeader : RequestBuilder Unit Unit Unit :=
  { builderNoHeaders with headers := some [{ name := "Accept", value := "text/plain" }] }

/-- A sample header. -/
def sampleHeader : Header := { name := "Content-Type", value := "application/json" }

/-! ## Theorems -/

/-- Dropping the entries on which `f` fails: the successful decodes and
the failing entries together account for every entry. -/
theorem length_filterMap_add_length_filter {α β : Type} (l : List α) (f : α → Option β) :
    (l.filterMap f).length + (l.filter (fun x => (f x).isNone)).length = l.length := by
  induction l with
  | nil => rfl
  | cons a l ih =>
    cases h : f a with
    | none =>
      simp only [List.filterMap_cons, List.filter_cons, h, Option.isNone_none,
        if_pos, List.length_cons]
      omega
    | some b =>
      simp only [List.filterMap_cons, List.filter_cons, h, Option.isNone_some,
        List.length_cons, Bool.false_eq_true, if_neg, not_false_eq_true]
      omega

/-- C1: the claim asserts `deserialize(p, serialize(C))` preserves the
set of environments, the environment bytes being the JSON of the bare
values map.  On the code this fails: `serialize` encodes the whole
`Environment` struct (name embedded), which `deserialize` cannot parse
as a values map, so every environment is dropped.  Evaluated at a
collection with one request and one environment: the request and the
save location survive the round trip, the environment list comes back
empty. -/
theorem c1_roundtrip_drops_environments :
    (Collection.deserialize ["collection"] sampleCollection.serialize).requests
        = [sampleRequest] ∧
    (Collection.deserialize ["collection"] sampleCollection.serialize).save_location
        = some ["collection"] ∧
    (Collection.deserialize ["collection"] sampleCollection.serialize).environments
        = [] := by
  decide

/-- C6: `RequestTab` cycling saturates at both ends: `prev_tab` at
`Body` stays at `Body`, and any number of `next_tab` applications
starting from `QueryParams` stays at `QueryParams`, because the
index-to-variant conversion returns the last variant for every
out-of-range index. -/
theorem c6_request_tab_saturates :
    RequestTab.prev_tab .body = .body ∧
    ∀ k : Nat, Nat.iterate RequestTab.next_tab k .queryParams = .queryParams := by
  refine ⟨by decide, ?_⟩
  intro k
  induction k with
  | zero => rfl
  | succ k ih =>
    rw [Function.iterate_succ_apply', ih]
    rfl

set_option maxRecDepth 10000 in
/-- C7: starting from the empty 256-slot ring buffer, inserting lines
`L1 .. L300` (line `Li` modelled as the natural number `i`) and reading
`display_logs` yields exactly the 256 most recent lines
`L45 .. L300` in chronological order. -/
theorem c7_ring_buffer_keeps_most_recent :
    ((List.range 300).foldl (fun b i => b.log (i + 1)) (RecordBuff.empty Nat)).display_logs
      = (List.range 256).map (fun j => j + 45) := by
  decide

/-- C9: `RequestBuilder::header` on a builder whose `headers` field is
`None` returns a builder whose `headers` is `Some` of the *empty*
vector — the supplied header is discarded; only when `headers` is
already `Some v` is the header appended. -/
theorem c9_header_discarded_when_none {N M U : Type}
    (b : RequestBuilder N M U) (h : Header) :
    (b.headers = none → b.header h = { b with headers := some [] }) ∧
    (∀ v, b.headers = some v → b.header h = { b with headers := some (v ++ [h]) }) := by
  constructor
  · intro hn
    simp [RequestBuilder.header, hn]
  · intro v hv
    simp [RequestBuilder.header, hv]

/-- Witness for C9 at concrete builders: the header is discarded when
`headers` is `None`, appended when it is `Some`. -/
theorem c9_header_discarded_when_none_witness :
    builderNoHeaders.header sampleHeader = { builderNoHeaders with headers := some [] } ∧
    builderWithHeader.header sampleHeader =
      { builderWithHeader with
          headers := some ([{ name := "Accept", value := "text/plain" }] ++ [sampleHeader]) } :=
  ⟨(c9_header_discarded_when_none builderNoHeaders sampleHeader).1 rfl,
   (c9_header_discarded_when_none builderWithHeader sampleHeader).2
     [{ name := "Accept", value := "text/plain" }] rfl⟩

/-- C2 counterexample: the claim says `update` on `Input(c)` appends
`c` to `input_buf`.  At the concrete Insert-mode app with an empty
buffer and the message `Input('a')`, the buffer stays empty: the
`Message::Input` branch only emits a trace log line. -/
theorem c2_counterexample :
    ¬ ((update insertModeApp bootFS (.input 'a')).app.input_buf
        = insertModeApp.input_buf.push 'a') := by
  decide

/-- C2 (amended): in Insert mode a character key press is translated
to `Input(c)`, but `update` on it leaves the whole `App` (including
`input_buf`) and the filesystem unchanged, producing no follow-up
message; an Escape key press in Insert mode transitions `mode` back to
Normal. -/
theorem c2_insert_mode_keys (app : App) (fs : FS) (c : Char)
    (h : app.mode = .insert) :
    handle_insert_key { kind := .press, code := .char c } = some (.input c) ∧
    update app fs (.rawKeyEvent { kind := .press, code := .char c }) =
      { app := app, fs := fs, res := .ok none } ∧
    update app fs (.rawKeyEvent { kind := .press, code := .esc }) =
      { app := { app with mode := .normal }, fs := fs, res := .ok none } := by
  refine ⟨rfl, ?_, ?_⟩
  · simp [update, h, handle_insert_key, dispatchMsg]
  · simp [update, h, handle_insert_key, dispatchMsg]

/-- Witness for C2 (amended) at a concrete Insert-mode app. -/
theorem c2_insert_mode_keys_witness :
    insertModeApp.mode = .insert ∧
    update insertModeApp bootFS (.rawKeyEvent { kind := .press, code := .char 'x' }) =
      { app := insertModeApp, fs := bootFS, res := .ok none } ∧
    update insertModeApp bootFS (.rawKeyEvent { kind := .press, code := .esc }) =
      { app := { insertModeApp with mode := .normal }, fs := bootFS, res := .ok none } :=
  ⟨rfl, (c2_insert_mode_keys insertModeApp bootFS 'x' rfl).2.1,
   (c2_insert_mode_keys insertModeApp bootFS 'x' rfl).2.2⟩

/-- C3: evaluating the bootstrap at a concrete first run (no
`work_dir`, valid `./request.json`): chasing `Start` through
`NewCollection` and the chained `SaveCollection` succeeds and installs
a collection with exactly 1 request and 1 environment — but re-reading
`work_dir` yields 1 request and 0 environments, because the persisted
environment file holds the full `Environment` JSON, which
`deserialize` cannot parse as a bare values map.  The claim's
"re-reading yields the same counts" clause fails on the code. -/
theorem c3_bootstrap_reload_loses_environment :
    (runChain 5 freshApp bootFS .start).res = .ok none ∧
    (runChain 5 freshApp bootFS .start).app.collection.map
        (fun c => (c.requests.length, c.environments.length)) = some (1, 1) ∧
    (update (runChain 5 freshApp bootFS .start).app (runChain 5 freshApp bootFS .start).fs
        (.loadCollection freshApp.work_dir)).app.collection.map
        (fun c => (c.requests.length, c.environments.length)) = some (1, 0) :=
  ⟨rfl, rfl, rfl⟩

/-- C4: `load_global_state` — when the global directory is absent it
creates the directory and returns an empty secrets mapping (not an
error); when the directory exists but the `secrets` file cannot be
read it fails; when directory and file exist and the file decodes, it
returns the decoded secrets mapping. -/
theorem c4_load_global_state (home : Path) (fs : FS) (h : fs.home = some home) :
    (fs.isDir (globalDir home) = false →
      load_global_state fs = (fs.createDir (globalDir home), .ok { secrets := [] })) ∧
    (fs.isDir (globalDir home) = true →
      fs.readFile (Path.join (globalDir home) "secrets") = none →
      load_global_state fs = (fs, .error "Failed to load secrets file")) ∧
    (∀ b s, fs.isDir (globalDir home) = true →
      fs.readFile (Path.join (globalDir home) "secrets") = some b →
      decodeSecrets b = some s →
      load_global_state fs = (fs, .ok { secrets := s })) := by
  refine ⟨?_, ?_, ?_⟩ <;> intros <;> simp [load_global_state, h, *]

/-- Witness for C4: the three branches at three concrete filesystems. -/
theorem c4_load_global_state_witness :
    fsNoGlobalDir.isDir (globalDir ["home"]) = false ∧
    load_global_state fsNoGlobalDir =
      (fsNoGlobalDir.createDir (globalDir ["home"]), .ok { secrets := [] }) ∧
    load_global_state fsGlobalDirNoFile =
      (fsGlobalDirNoFile, .error "Failed to load secrets file") ∧
    load_global_state fsGlobalDirWithFile =
      (fsGlobalDirWithFile, .ok { secrets := [("api-key", .rawValue)] }) :=
  ⟨rfl,
   (c4_load_global_state ["home"] fsNoGlobalDir rfl).1 rfl,
   (c4_load_global_state ["home"] fsGlobalDirNoFile rfl).2.1 rfl rfl,
   (c4_load_global_state ["home"] fsGlobalDirWithFile rfl).2.2 _ _ rfl rfl rfl⟩

/-- Mapping over an option does not change whether it is `none`. -/
theorem isNone_map {α β : Type} (f : α → β) (o : Option α) :
    (o.map f).isNone = o.isNone := by
  cases o <;> rfl

/-- C5: for a `SerializedCollection`, `deserialize` silently skips the
entries whose bytes do not decode: when exactly one request entry is
invalid the result has one request fewer than the map has entries, the
resulting requests are exactly the decodings of the valid entries, and
the same per-item skipping applies to environments. -/
theorem c5_deserialize_skips_invalid (p : Path) (sc : SerializedCollection) :
    ((sc.requests.filter (fun e => (decodeRequest e.2).isNone)).length = 1 →
      (Collection.deserialize p sc).requests.length + 1 = sc.requests.length) ∧
    (∀ r : Request, r ∈ (Collection.deserialize p sc).requests ↔
      ∃ e ∈ sc.requests, decodeRequest e.2 = some r) ∧
    ((sc.environments.filter (fun e => (decodeEnvValues e.2).isNone)).length = 1 →
      (Collection.deserialize p sc).environments.length + 1 = sc.environments.length) := by
  refine ⟨?_, ?_, ?_⟩
  · intro h1
    have H := length_filterMap_add_length_filter sc.requests (fun e => decodeRequest e.2)
    rw [h1] at H
    simpa [Collection.deserialize] using H
  · intro r
    simp [Collection.deserialize, List.mem_filterMap]
  · intro h1
    have H := length_filterMap_add_length_filter sc.environments
      (fun e => (decodeEnvValues e.2).map (fun values => Environment.mk e.1 values))
    simp only [isNone_map] at H
    rw [h1] at H
    simpa [Collection.deserialize] using H

/-- Witness for C5 at a concrete serialized collection with one
corrupt request blob and one corrupt environment blob among two
each. -/
theorem c5_deserialize_skips_invalid_witness :
    (corruptSerialized.requests.filter (fun e => (decodeRequest e.2).isNone)).length = 1 ∧
    (Collection.deserialize ["p"] corruptSerialized).requests.length + 1
      = corruptSerialized.requests.length ∧
    (sampleRequest ∈ (Collection.deserialize ["p"] corruptSerialized).requests ↔
      ∃ e ∈ corruptSerialized.requests, decodeRequest e.2 = some sampleRequest) ∧
    (Collection.deserialize ["p"] corruptSerialized).environments.length + 1
      = corruptSerialized.environments.length :=
  ⟨by decide,
   (c5_deserialize_skips_invalid ["p"] corruptSerialized).1 (by decide),
   (c5_deserialize_skips_invalid ["p"] corruptSerialized).2.1 sampleRequest,
   (c5_deserialize_skips_invalid ["p"] corruptSerialized).2.2 (by decide)⟩

/-- `FS.writeFile` leaves `home` untouched. -/
theorem writeFile_home (fs : FS) (p : Path) (b : Bytes) :
    (fs.writeFile p b).home = fs.home := rfl

/-- A fold of per-entry file writes leaves `home` untouched. -/
theorem foldl_writeFile_home (l : List (String × Bytes)) (d : Path) (fs : FS) :
    (l.foldl (fun f e => f.writeFile (Path.join d e.1) e.2) fs).home = fs.home := by
  induction l generalizing fs with
  | nil => rfl
  | cons a l ih => rw [List.foldl_cons, ih, writeFile_home]

/-- The create-if-missing directory step leaves `home` untouched. -/
theorem ite_createDir_home (fs : FS) (p : Path) :
    (if fs.pathExists p then fs else fs.createDir p).home = fs.home := by
  by_cases h : fs.pathExists p <;> simp [h, FS.createDir]

/-- With a collection loaded, `SaveCollection` succeeds, returns no
follow-up message, and leaves the `App` and the filesystem's home
untouched. -/
theorem saveCollectionStep_of_some (app : App) (fs : FS) (c : Collection)
    (h : app.collection = some c) :
    (saveCollectionStep app fs).app = app ∧
    (saveCollectionStep app fs).res = .ok none ∧
    (saveCollectionStep app fs).fs.home = fs.home := by
  unfold saveCollectionStep
  rw [h]
  refine ⟨rfl, rfl, ?_⟩
  simp only [foldl_writeFile_home, ite_createDir_home]

/-- With the home directory available, `SaveGlobal` succeeds and
leaves the `App` untouched. -/
theorem saveGlobalStep_of_home (app : App) (fs : FS) (home : Path)
    (h : fs.home = some home) :
    (saveGlobalStep app fs).app = app ∧ (saveGlobalStep app fs).res = .ok none := by
  unfold saveGlobalStep save_global_state
  rw [h]
  by_cases hd : fs.isDir (globalDir home) <;> simp [hd]

/-- C8: with a collection loaded (and the home directory available),
`update` on `Quit` sets `running` to `false`, then performs the
`SaveCollection` update on that state followed by the `SaveGlobal`
update on its output — collection saved before global state — and
returns no follow-up message. -/
theorem c8_quit_saves_collection_then_global (app : App) (fs : FS)
    (c : Collection) (home : Path)
    (hc : app.collection = some c) (hf : fs.home = some home) :
    update app fs .quit =
      { app := (saveGlobalStep (saveCollectionStep { app with running := false } fs).app
                  (saveCollectionStep { app with running := false } fs).fs).app
        fs := (saveGlobalStep (saveCollectionStep { app with running := false } fs).app
                  (saveCollectionStep { app with running := false } fs).fs).fs
        res := .ok none } ∧
    (update app fs .quit).app.running = false ∧
    (update app fs .quit).res = .ok none := by
  have hc' : ({ app with running := false } : App).collection = some c := hc
  obtain ⟨ha1, hr1, hh1⟩ := saveCollectionStep_of_some { app with running := false } fs c hc'
  obtain ⟨ha2, hr2⟩ := saveGlobalStep_of_home
    (saveCollectionStep { app with running := false } fs).app
    (saveCollectionStep { app with running := false } fs).fs
    home (by rw [hh1, hf])
  have hmain : update app fs .quit =
      { app := (saveGlobalStep (saveCollectionStep { app with running := false } fs).app
                  (saveCollectionStep { app with running := false } fs).fs).app
        fs := (saveGlobalStep (saveCollectionStep { app with running := false } fs).app
                  (saveCollectionStep { app with running := false } fs).fs).fs
        res := .ok none } := by
    show dispatchMsg app fs .quit = _
    simp only [dispatchMsg]
    rw [hr1]
    rw [hr2]
  refine ⟨hmain, ?_, ?_⟩
  · rw [hmain, ha2, ha1]
  · rw [hmain]

/-- Witness for C8 at a concrete app with `sampleCollection` loaded. -/
theorem c8_quit_saves_collection_then_global_witness :
    loadedApp.collection = some sampleCollection ∧
    (update loadedApp bootFS .quit).app.running = false ∧
    (update loadedApp bootFS .quit).res = .ok none :=
  ⟨rfl,
   (c8_quit_saves_collection_then_global loadedApp bootFS sampleCollection ["home"]
      rfl rfl).2.1,
   (c8_quit_saves_collection_then_global loadedApp bootFS sampleCollection ["home"]
      rfl rfl).2.2⟩

/-- C10: with no collection loaded, `update` on `SaveCollection` fails
before touching the filesystem and leaves every `App` field unchanged,
and quitting with no collection loaded propagates this error (after
setting `running := false`, the only mutation `Quit` makes before the
failing save). -/
theorem c10_save_none_collection (app : App) (fs : FS)
    (h : app.collection = none) :
    update app fs .saveCollection =
      { app := app, fs := fs, res := .error "Attempted to serialize a none collection" } ∧
    update app fs .quit =
      { app := { app with running := false }, fs := fs,
        res := .error "Attempted to serialize a none collection" } := by
  constructor
  · show dispatchMsg app fs .saveCollection = _
    simp [dispatchMsg, saveCollectionStep, h]
  · show dispatchMsg app fs .quit = _
    simp [dispatchMsg, saveCollectionStep, h]

/-- Witness for C10 at a concrete app with no collection. -/
theorem c10_save_none_collection_witness :
    freshApp.collection = none ∧
    update freshApp bootFS .saveCollection =
      { app := freshApp, fs := bootFS,
        res := .error "Attempted to serialize a none collection" } ∧
    update freshApp bootFS .quit =
      { app := { freshApp with running := false }, fs := bootFS,
        res := .error "Attempted to serialize a none collection" } :=
  ⟨rfl,
   (c10_save_none_collection freshApp bootFS rfl).1,
   (c10_save_none_collection freshApp bootFS rfl).2⟩

end CarrierPigeon
